import Mathlib

/-!
Shallow embedding of the MongoDB maintenance scripts `migrate_user_ids.py`
and `copy_phone_fields.py` (repository `mongo_scripts`), together with
theorems settling the frozen claims about them.

Modelling conventions:
* A BSON field value is an element of the inductive type `Value`; a document
  field that may be absent is an `Option Value` (`none` means the field is
  missing from the document, `some Value.null` means it is present with the
  BSON null value).
* Python's `str(...)` on field values is `toStr`; `str` of an ObjectId is
  `oidStr` (an injective rendering of the surrogate id, which we model as a
  natural number).
* A MongoDB collection is a list of documents; a single-document update is a
  functional update of the corresponding list element.
* Python dictionaries keyed by strings are association lists with
  insert-or-replace semantics (`dictInsert`): replacing keeps the entry's
  position, inserting a fresh key appends, so the length of the list is the
  size of the dictionary.
* Per-record exceptions thrown by a single-document update are modelled by an
  oracle `fails : Nat → Bool` on the document's surrogate id; the control flow
  of each loop around its try/except blocks is reproduced exactly.
-/

/-- A BSON value as far as these scripts observe it: null, strings, booleans,
integers and ObjectIds. The scripts copy values verbatim and only ever
inspect them through Python `str`, so this tagged union is sufficient. -/
inductive Value where
  | null : Value
  | str (s : String) : Value
  | bool (b : Bool) : Value
  | int (n : Int) : Value
  | objectId (o : Nat) : Value
deriving DecidableEq, Repr

/-- Python `str` of an ObjectId: an injective string rendering of the
surrogate identifier. -/
def oidStr (o : Nat) : String := "oid" ++ toString o

/-- Python `str` of a field value: `str(None) = "None"`, booleans render as
`True` and `False`, integers and ObjectIds by their usual renderings. -/
def toStr : Value → String
  | Value.null => "None"
  | Value.str s => s
  | Value.bool b => if b then "True" else "False"
  | Value.int n => toString n
  | Value.objectId o => oidStr o

/-- A document of the `users` collection as the migrator projects it:
the surrogate id `_id` (field `oid`) and the optional `userId` field. -/
structure UserDoc where
  oid : Nat
  userId : Option Value
deriving DecidableEq, Repr

/-- A document of a dependent collection (`addresses`, `orders`, `reviews`,
`rewards`) as the migrator projects it: `_id` (field `oid`) and the optional
`userId` reference field. -/
structure DepDoc where
  oid : Nat
  userId : Option Value
deriving DecidableEq, Repr

/-- Insert-or-replace into a Python-dict model: if the key is present its
value is replaced in place, otherwise the pair is appended. The length of
the association list equals the size of the dictionary. -/
def dictInsert (m : List (String × String)) (k v : String) :
    List (String × String) :=
  if m.any (fun p => p.1 == k) then
    m.map (fun p => if p.1 == k then (k, v) else p)
  else m ++ [(k, v)]

/-- Python dict lookup (`key in d` followed by `d[key]`). -/
def dictLookup (m : List (String × String)) (k : String) : Option String :=
  (m.find? (fun p => p.1 == k)).map Prod.snd

/-- Mapping key contributed by a user record in `create_migration_mapping`:
`str(user.get('userId', user['_id']))`, i.e. the string form of the `userId`
field when the field is present (even when it is null), else the string form
of `_id`. -/
def mappingKey (u : UserDoc) : String :=
  match u.userId with
  | some v => toStr v
  | none => oidStr u.oid

/-- Embedding of `UserIdMigrator.create_migration_mapping`: fold over every
user document, inserting `mappingKey u ↦ str(_id)` into a Python dict. -/
def createMigrationMapping (users : List UserDoc) : List (String × String) :=
  users.foldl (fun m u => dictInsert m (mappingKey u) (oidStr u.oid)) []

/-- Result of a users-collection migration pass: the resulting documents,
the number of documents MongoDB reported as modified, and whether the pass
returned success. -/
structure MigrateResult where
  docs : List UserDoc
  updated : Nat
  success : Bool
deriving DecidableEq, Repr

/-- The single-document update issued by `migrate_users_collection`:
`$set userId = str(_id)`. -/
def setUid (u : UserDoc) : UserDoc :=
  { u with userId := some (Value.str (oidStr u.oid)) }

/-- The update loop of `migrate_users_collection`. The try/except block
wraps the whole loop, so an exception raised by one document's update (the
oracle `fails`) aborts the loop: earlier updates persist, the failing and
all later documents are left untouched, and the function returns failure.
A document whose stored `userId` already equals `str(_id)` yields
`modified_count = 0` and is not counted. -/
def migrateUsersLoop (fails : Nat → Bool) : List UserDoc → MigrateResult
  | [] => ⟨[], 0, true⟩
  | u :: rest =>
    if fails u.oid then ⟨u :: rest, 0, false⟩
    else
      let r := migrateUsersLoop fails rest
      ⟨setUid u :: r.docs,
        (if u.userId = some (Value.str (oidStr u.oid)) then 0 else 1) + r.updated,
        r.success⟩

/-- Embedding of `UserIdMigrator.migrate_users_collection`: in dry-run mode
it logs and returns success without touching any document; otherwise it runs
the update loop. -/
def migrateUsersCollection (dryRun : Bool) (fails : Nat → Bool)
    (docs : List UserDoc) : MigrateResult :=
  if dryRun then ⟨docs, 0, true⟩ else migrateUsersLoop fails docs

/-- The per-document step of `_migrate_single_collection`: the cursor only
yields documents whose `userId` exists and is not null; for those, the old
reference's string form is looked up in the mapping; on a hit the reference
is set to the mapped string, on a miss the document is left untouched (the
code has no error report for this case). -/
def migrateDepDoc (mapping : List (String × String)) (d : DepDoc) : DepDoc :=
  match d.userId with
  | none => d
  | some v =>
    if v = Value.null then d
    else
      match dictLookup mapping (toStr v) with
      | some newId => { d with userId := some (Value.str newId) }
      | none => d

/-- Embedding of `UserIdMigrator._migrate_single_collection`: in dry-run
mode it only counts and changes nothing; otherwise every document is passed
through `migrateDepDoc`. With no exception raised the function returns
success. -/
def migrateSingleCollection (dryRun : Bool) (mapping : List (String × String))
    (docs : List DepDoc) : List DepDoc × Bool :=
  if dryRun then (docs, true) else (docs.map (migrateDepDoc mapping), true)

/-- Valid reference targets used by the verification step:
`set(str(u) for u in users.distinct('userId') if u is not None)`. We keep
the (possibly repeating) list of strings; only membership matters. -/
def validUserIds (users : List UserDoc) : List String :=
  users.filterMap (fun u =>
    match u.userId with
    | some v => if v = Value.null then none else some (toStr v)
    | none => none)

/-- String forms of the non-null references a dependent-collection cursor
over `{userId: {exists, ne null}}` yields, in document order. -/
def refStrings (docs : List DepDoc) : List String :=
  docs.filterMap (fun d =>
    match d.userId with
    | some v => if v = Value.null then none else some (toStr v)
    | none => none)

/-- Accumulator step of `_check_reference_integrity`'s scan: count a valid
reference, or count an invalid one and append its string to the invalid list
when it is not already there. -/
def refIntegrityStep (valid : List String) (acc : Nat × Nat × List String)
    (s : String) : Nat × Nat × List String :=
  if s ∈ valid then (acc.1 + 1, acc.2.1, acc.2.2)
  else (acc.1, acc.2.1 + 1, if s ∈ acc.2.2 then acc.2.2 else acc.2.2 ++ [s])

/-- Per-collection result of `_check_reference_integrity`. -/
structure RefIntegrityResult where
  totalReferences : Nat
  validReferences : Nat
  invalidReferences : Nat
  invalidUserIds : List String
deriving DecidableEq, Repr

/-- Embedding of `UserIdMigrator._check_reference_integrity` for one
dependent collection: scan all non-null references, classify each against
the valid set, collect first occurrences of invalid strings, and report
only the first 50 of them (`invalid_user_ids[:50]`). -/
def checkReferenceIntegrity (users : List UserDoc) (docs : List DepDoc) :
    RefIntegrityResult :=
  let refs := refStrings docs
  let r := refs.foldl (refIntegrityStep (validUserIds users)) (0, 0, [])
  ⟨refs.length, r.1, r.2.1, r.2.2.take 50⟩

/-- First-occurrence de-duplication step (`if s not in acc: acc.append(s)`). -/
def dedupStep (acc : List String) (s : String) : List String :=
  if s ∈ acc then acc else acc ++ [s]

/-- First-occurrence de-duplication of a list of strings. Python's
`list(set(xs))` produces these elements in an unspecified order; we fix the
first-occurrence order as the canonical representative and state properties
about the result through membership only. -/
def dedupFirst (l : List String) : List String := l.foldl dedupStep []

/-- Embedding of `UserIdMigrator._find_orphaned_references` for one
dependent collection: collect every non-null reference string absent from
the valid set, then de-duplicate (`list(set(orphaned_ids))`), with no cap. -/
def findOrphanedReferences (users : List UserDoc) (docs : List DepDoc) :
    List String :=
  dedupFirst ((refStrings docs).filter
    (fun s => decide (¬ s ∈ validUserIds users)))

/-- The database state the migrator operates on: the primary `users`
collection and the four dependent collections, in the fixed order of
`referencing_collections`. -/
structure DbState where
  users : List UserDoc
  addresses : List DepDoc
  orders : List DepDoc
  reviews : List DepDoc
  rewards : List DepDoc
deriving DecidableEq, Repr

/-- Outcome of `run_migration`: the boolean it returns, the resulting
database state, and whether the backup artifact write was performed
(`_save_migration_backup` is best-effort; `backupWritten` records that the
write was carried out, a failure of the write itself being logged only). -/
structure RunResult where
  success : Bool
  db : DbState
  backupWritten : Bool
deriving DecidableEq, Repr

/-- Embedding of `UserIdMigrator.run_migration` (with no per-record update
exceptions): abort on connection failure before any mutation; analyze and
verify (read-only, no effect on the state); return early in check-only mode;
build the mapping and write the backup artifact unconditionally; return
early when the mapping is empty; migrate the users collection and then each
dependent collection in the fixed order, honouring the dry-run flag inside
each step exactly as the code does. -/
def runMigration (connectOk dryRun checkOnly : Bool) (db : DbState) :
    RunResult :=
  if !connectOk then ⟨false, db, false⟩
  else if checkOnly then ⟨true, db, false⟩
  else
    let mapping := createMigrationMapping db.users
    if mapping.isEmpty then ⟨true, db, true⟩
    else
      let r := migrateUsersCollection dryRun (fun _ => false) db.users
      if !r.success then ⟨false, ⟨r.docs, db.addresses, db.orders, db.reviews, db.rewards⟩, true⟩
      else
        ⟨true,
          ⟨r.docs,
            (migrateSingleCollection dryRun mapping db.addresses).1,
            (migrateSingleCollection dryRun mapping db.orders).1,
            (migrateSingleCollection dryRun mapping db.reviews).1,
            (migrateSingleCollection dryRun mapping db.rewards).1⟩,
          true⟩

/-- Embedding of `main`'s exit code: `sys.exit(0 if success else 1)` where
`success` is the boolean returned by `run_migration`. -/
def mainExitCode (success : Bool) : Nat := if success then 0 else 1

/-- A document of the `users` collection as `copy_phone_fields.py` observes
it: the surrogate id and the two fixed source/target field pairs of
`field_mappings` (`phone → phoneNumber`,
`phoneVerification → phoneNumberVerification`). `none` means the field is
absent. -/
structure PhoneDoc where
  oid : Nat
  phone : Option Value
  phoneVerification : Option Value
  phoneNumber : Option Value
  phoneNumberVerification : Option Value
deriving DecidableEq, Repr

/-- Python `dict.get(field)` on a document: returns `None` both when the
field is absent and when it is present with the null value, so the two are
indistinguishable to the copier's update logic. -/
def pyGet (o : Option Value) : Option Value :=
  match o with
  | some Value.null => none
  | x => x

/-- MongoDB `$exists: true` on a field: true also when the stored value is
null, in contrast with `pyGet`. -/
def fieldExists (o : Option Value) : Bool := o.isSome

/-- Embedding of `PhoneFieldsCopier._build_query` as the predicate a
document satisfies: an `$or` over the two field mappings, each branch
requiring the source field to exist and, when skip-existing is enabled, the
target field not to exist. -/
def matchesQuery (skipExisting : Bool) (d : PhoneDoc) : Bool :=
  (fieldExists d.phone && (!skipExisting || !fieldExists d.phoneNumber))
  || (fieldExists d.phoneVerification
      && (!skipExisting || !fieldExists d.phoneNumberVerification))

/-- The per-document update of `PhoneFieldsCopier._perform_updates`: for
each field mapping, read the source through `doc.get` (null and absent both
read as `None`); when the source reads non-`None` and the target reads
`None` (or skip-existing is disabled), `$set` the target to the source value
verbatim. Both conditions read the original document. -/
def applyPhoneUpdate (skipExisting : Bool) (d : PhoneDoc) : PhoneDoc :=
  let d1 :=
    match pyGet d.phone with
    | some v =>
      if pyGet d.phoneNumber = none ∨ skipExisting = false then
        { d with phoneNumber := some v }
      else d
    | none => d
  match pyGet d.phoneVerification with
  | some w =>
    if pyGet d.phoneNumberVerification = none ∨ skipExisting = false then
      { d1 with phoneNumberVerification := some w }
    else d1
  | none => d1

/-- Result of `_perform_updates`: the documents after the loop, the number
of documents counted as processed, and the ids logged by the per-document
exception handler. -/
structure CopyResult where
  docs : List PhoneDoc
  processed : Nat
  errors : List Nat
deriving DecidableEq, Repr

/-- The update loop of `PhoneFieldsCopier._perform_updates`. Unlike the
migrator's loops, the try/except sits inside the loop body: a document whose
update raises (the oracle `fails`) is logged and skipped with `continue`,
and the loop proceeds with the next document; `processed_count` is not
incremented for it. -/
def performUpdates (skipExisting : Bool) (fails : Nat → Bool) :
    List PhoneDoc → CopyResult
  | [] => ⟨[], 0, []⟩
  | d :: rest =>
    let r := performUpdates skipExisting fails rest
    if fails d.oid then ⟨d :: r.docs, r.processed, d.oid :: r.errors⟩
    else ⟨applyPhoneUpdate skipExisting d :: r.docs, r.processed + 1, r.errors⟩

/-- One exception-free run of `copy_phone_fields` over a collection:
documents matching `_build_query` receive the update, all others are left
untouched. -/
def copyPhoneFieldsRun (skipExisting : Bool) (docs : List PhoneDoc) :
    List PhoneDoc :=
  docs.map (fun d =>
    if matchesQuery skipExisting d then applyPhoneUpdate skipExisting d else d)

/-! Helper lemmas about the users-collection migration loop. -/

/-- With no exception raised, the loop updates every document. -/
theorem migrateUsersLoop_noFail_docs (docs : List UserDoc) :
    (migrateUsersLoop (fun _ => false) docs).docs = docs.map setUid := by
  induction docs with
  | nil => rfl
  | cons u rest ih => simp [migrateUsersLoop, ih]

/-- With no exception raised, the loop reports success. -/
theorem migrateUsersLoop_noFail_success (docs : List UserDoc) :
    (migrateUsersLoop (fun _ => false) docs).success = true := by
  induction docs with
  | nil => rfl
  | cons u rest ih => simp [migrateUsersLoop, ih]

/-- When every document already stores its surrogate id string, none of the
updates modifies anything. -/
theorem migrateUsersLoop_noFail_updated_zero (docs : List UserDoc)
    (h : ∀ u ∈ docs, u.userId = some (Value.str (oidStr u.oid))) :
    (migrateUsersLoop (fun _ => false) docs).updated = 0 := by
  induction docs with
  | nil => rfl
  | cons u rest ih =>
    have hu := h u (List.mem_cons_self u rest)
    have hr := ih (fun w hw => h w (List.mem_cons_of_mem u hw))
    simp [migrateUsersLoop, hu, hr]

/-- Every document present in the result of a successful loop stores its
surrogate id string. -/
theorem migrateUsersLoop_success_mem (fails : Nat → Bool) (docs : List UserDoc)
    (u : UserDoc) (hs : (migrateUsersLoop fails docs).success = true)
    (hu : u ∈ (migrateUsersLoop fails docs).docs) :
    u.userId = some (Value.str (oidStr u.oid)) := by
  induction docs with
  | nil => simp [migrateUsersLoop] at hu
  | cons a rest ih =>
    by_cases hf : fails a.oid = true
    · simp [migrateUsersLoop, hf] at hs
    · simp only [migrateUsersLoop, hf, Bool.false_eq_true, if_false,
        List.mem_cons] at hs hu
      rcases hu with h1 | h2
      · subst h1; rfl
      · exact ih hs h2

/-- Setting the business id twice is the same as setting it once. -/
theorem setUid_setUid (u : UserDoc) : setUid (setUid u) = setUid u := rfl

/-- C2: after `migrate_users_collection` completes without error on a live
(non-dry-run) run, every document in the users collection has its `userId`
field equal to the string form of its `_id`. -/
theorem migrate_users_completeness (fails : Nat → Bool) (docs : List UserDoc)
    (u : UserDoc)
    (hs : (migrateUsersCollection false fails docs).success = true)
    (hu : u ∈ (migrateUsersCollection false fails docs).docs) :
    u.userId = some (Value.str (oidStr u.oid)) := by
  simp only [migrateUsersCollection, if_neg (Bool.false_ne_true ∘ id)] at hs hu
  exact migrateUsersLoop_success_mem fails docs u hs hu

/-- C2 witness: a one-document live run succeeds and the resulting document
stores its surrogate id string. -/
theorem migrate_users_completeness_witness :
    (⟨1, some (Value.str (oidStr 1))⟩ : UserDoc).userId
      = some (Value.str (oidStr 1)) :=
  migrate_users_completeness (fun _ => false) [⟨1, none⟩]
    ⟨1, some (Value.str (oidStr 1))⟩ (by decide) (by decide)

/-- C3: running the live users-collection migration twice yields the same
final collection state as running it once, and the second run modifies
nothing (its modified-document count is zero). -/
theorem migrate_users_idempotent (docs : List UserDoc) :
    (migrateUsersCollection false (fun _ => false)
        ((migrateUsersCollection false (fun _ => false) docs).docs)).docs
      = (migrateUsersCollection false (fun _ => false) docs).docs
    ∧ (migrateUsersCollection false (fun _ => false)
        ((migrateUsersCollection false (fun _ => false) docs).docs)).updated = 0 := by
  have hd : (migrateUsersCollection false (fun _ => false) docs).docs
      = docs.map setUid := migrateUsersLoop_noFail_docs docs
  constructor
  · rw [hd]
    have h2 : (migrateUsersCollection false (fun _ => false)
        (docs.map setUid)).docs = (docs.map setUid).map setUid :=
      migrateUsersLoop_noFail_docs (docs.map setUid)
    rw [h2, List.map_map]
    exact List.map_congr_left fun a _ => setUid_setUid a
  · rw [hd]
    exact migrateUsersLoop_noFail_updated_zero (docs.map setUid) (by
      intro u hu
      rcases List.mem_map.mp hu with ⟨w, _, rfl⟩
      rfl)

/-- C7 counterexample: in `migrate_users_collection` the try/except wraps
the whole loop, so when the first record's update raises, the second record
is never attempted (it stays unchanged) and the function returns failure,
even though the second record's own update would not have raised. -/
theorem migrate_users_abort_cex :
    migrateUsersCollection false (fun n => n == 1) [⟨1, none⟩, ⟨2, none⟩]
      = ⟨[⟨1, none⟩, ⟨2, none⟩], 0, false⟩
    ∧ ((fun n : Nat => n == 1) 2) = false := by decide

/-- C7 amended: in the phone-fields copier's `_perform_updates` the
try/except sits inside the loop, so each document's outcome depends only on
that document: a failing record is logged in the error list and skipped,
every other record is still attempted and updated, and the processed count
is the number of non-failing records. -/
theorem perform_updates_attempts_all (skipExisting : Bool) (fails : Nat → Bool)
    (docs : List PhoneDoc) :
    (performUpdates skipExisting fails docs).docs
      = docs.map (fun d =>
          if fails d.oid then d else applyPhoneUpdate skipExisting d)
    ∧ (performUpdates skipExisting fails docs).errors
      = (docs.filter (fun d => fails d.oid)).map (fun d => d.oid)
    ∧ (performUpdates skipExisting fails docs).processed
      = (docs.filter (fun d => !fails d.oid)).length := by
  induction docs with
  | nil => exact ⟨rfl, rfl, rfl⟩
  | cons d rest ih =>
    cases hf : fails d.oid
    · simp [performUpdates, hf, List.filter_cons, ih.1, ih.2.1, ih.2.2]
    · simp [performUpdates, hf, List.filter_cons, ih.1, ih.2.1, ih.2.2]

/-! Helper lemmas about the migration-mapping dictionary. -/

/-- Keys of an insert-or-replace: replacement keeps the key list, a fresh
insert appends the new key. -/
theorem dictInsert_keys (m : List (String × String)) (k v : String) :
    (dictInsert m k v).map Prod.fst =
      if k ∈ m.map Prod.fst then m.map Prod.fst
      else m.map Prod.fst ++ [k] := by
  have hmem : (m.any (fun p => p.1 == k)) = true ↔ k ∈ m.map Prod.fst := by
    rw [List.any_eq_true]
    constructor
    · rintro ⟨p, hp, hpk⟩
      exact (eq_of_beq hpk) ▸ List.mem_map_of_mem Prod.fst hp
    · intro hk
      rcases List.mem_map.mp hk with ⟨p, hp, rfl⟩
      exact ⟨p, hp, beq_self_eq_true p.1⟩
  unfold dictInsert
  by_cases h : (m.any (fun p => p.1 == k)) = true
  · rw [if_pos h, if_pos (hmem.mp h), List.map_map]
    refine List.map_congr_left fun p _ => ?_
    simp only [Function.comp_apply]
    by_cases hp : p.1 = k
    · have hb : (p.1 == k) = true := beq_iff_eq.mpr hp
      rw [if_pos hb]
      exact hp.symm
    · have hb : ¬ (p.1 == k) = true := by simpa using hp
      rw [if_neg hb]
  · rw [if_neg h, if_neg (fun hk => h (hmem.mpr hk)), List.map_append]
    simp

/-- A fresh insert grows the dictionary by one entry. -/
theorem dictInsert_length_fresh (m : List (String × String)) (k v : String)
    (hk : ¬ k ∈ m.map Prod.fst) :
    (dictInsert m k v).length = m.length + 1 := by
  have h := dictInsert_keys m k v
  rw [if_neg hk] at h
  have := congrArg List.length h
  simpa using this

/-- The inserted key is a key of the result. -/
theorem mem_keys_dictInsert_self (m : List (String × String)) (k v : String) :
    k ∈ (dictInsert m k v).map Prod.fst := by
  rw [dictInsert_keys]
  by_cases h : k ∈ m.map Prod.fst <;> simp [h]

/-- Existing keys survive an insert-or-replace. -/
theorem mem_keys_dictInsert_of_mem (m : List (String × String)) (k v x : String)
    (hx : x ∈ m.map Prod.fst) :
    x ∈ (dictInsert m k v).map Prod.fst := by
  rw [dictInsert_keys]
  by_cases h : k ∈ m.map Prod.fst <;> simp [h, hx]

/-- Keys of the mapping-building fold when the contributed keys are fresh
and pairwise distinct: the fold appends exactly one key per record. -/
theorem createMigrationMapping_keys_aux (users : List UserDoc) :
    ∀ m : List (String × String),
      (users.map mappingKey).Nodup →
      (∀ u ∈ users, ¬ mappingKey u ∈ m.map Prod.fst) →
      ((users.foldl (fun m u => dictInsert m (mappingKey u) (oidStr u.oid)) m).map
          Prod.fst)
        = m.map Prod.fst ++ users.map mappingKey := by
  induction users with
  | nil => intro m _ _; simp
  | cons a rest ih =>
    intro m hnd hdisj
    have hka : ¬ mappingKey a ∈ m.map Prod.fst :=
      hdisj a (List.mem_cons_self a rest)
    have hnd1 : (∀ x ∈ rest, ¬ mappingKey x = mappingKey a)
        ∧ (rest.map mappingKey).Nodup := by simpa using hnd
    have hnd2 : (rest.map mappingKey).Nodup := hnd1.2
    have hnotin : ¬ mappingKey a ∈ rest.map mappingKey := by
      intro hmem
      rcases List.mem_map.mp hmem with ⟨x, hx, hxe⟩
      exact hnd1.1 x hx hxe
    have hdisj2 : ∀ u ∈ rest,
        ¬ mappingKey u ∈ (dictInsert m (mappingKey a) (oidStr a.oid)).map Prod.fst := by
      intro u hu
      rw [dictInsert_keys, if_neg hka]
      intro hmem
      rcases List.mem_append.mp hmem with h1 | h2
      · exact hdisj u (List.mem_cons_of_mem a hu) h1
      · have : mappingKey u = mappingKey a := by simpa using h2
        exact hnotin (this ▸ List.mem_map_of_mem mappingKey hu)
    calc ((rest.foldl (fun m u => dictInsert m (mappingKey u) (oidStr u.oid))
            (dictInsert m (mappingKey a) (oidStr a.oid))).map Prod.fst)
        = (dictInsert m (mappingKey a) (oidStr a.oid)).map Prod.fst
            ++ rest.map mappingKey := ih _ hnd2 hdisj2
      _ = (m.map Prod.fst ++ [mappingKey a]) ++ rest.map mappingKey := by
            rw [dictInsert_keys, if_neg hka]
      _ = m.map Prod.fst ++ (a :: rest).map mappingKey := by
            simp

/-- Keys already present are still present after folding more records in. -/
theorem mem_keys_foldl_mono (users : List UserDoc) :
    ∀ (m : List (String × String)) (x : String), x ∈ m.map Prod.fst →
      x ∈ ((users.foldl (fun m u => dictInsert m (mappingKey u) (oidStr u.oid)) m).map
        Prod.fst) := by
  induction users with
  | nil => intro m x hx; simpa using hx
  | cons a rest ih =>
    intro m x hx
    simp only [List.foldl_cons]
    exact ih _ x (mem_keys_dictInsert_of_mem m (mappingKey a) (oidStr a.oid) x hx)

/-- Each record's derived key is a key of the finished fold, with no
assumption on distinctness. -/
theorem mappingKey_mem_keys_aux (users : List UserDoc) :
    ∀ (m : List (String × String)) (u : UserDoc), u ∈ users →
      mappingKey u ∈
        ((users.foldl (fun m u => dictInsert m (mappingKey u) (oidStr u.oid)) m).map
          Prod.fst) := by
  induction users with
  | nil => intro m u hu; cases hu
  | cons a rest ih =>
    intro m u hu
    simp only [List.foldl_cons]
    rcases List.mem_cons.mp hu with rfl | h
    · exact mem_keys_foldl_mono rest _ (mappingKey u)
        (mem_keys_dictInsert_self m (mappingKey u) (oidStr u.oid))
    · exact ih _ u h

/-- C1 counterexample: two user records whose `userId` values render to the
same string contribute the same dictionary key, so the mapping built by
`create_migration_mapping` has one entry for two documents — its size is
not the document count. -/
theorem create_migration_mapping_size_cex :
    (createMigrationMapping
        [⟨1, some (Value.str "x")⟩, ⟨2, some (Value.str "x")⟩]).length = 1
    ∧ ([(⟨1, some (Value.str "x")⟩ : UserDoc),
        ⟨2, some (Value.str "x")⟩]).length = 2 := by decide

/-- C1 amended: each record contributes the key `str(userId)` when `userId`
is present (else `str(_id)`) with value `str(_id)`; every record's key is
present in the finished mapping, and the mapping's size equals the document
count exactly when the derived keys are pairwise distinct (in general the
size is the number of distinct derived keys, since duplicate keys collapse
into one dictionary entry). -/
theorem create_migration_mapping_totality (users : List UserDoc) (u : UserDoc)
    (hu : u ∈ users) (hkeys : (users.map mappingKey).Nodup) :
    (createMigrationMapping users).length = users.length
    ∧ mappingKey u ∈ (createMigrationMapping users).map Prod.fst := by
  constructor
  · have h := createMigrationMapping_keys_aux users [] hkeys (by simp)
    have h2 := congrArg List.length h
    simpa [createMigrationMapping] using h2
  · exact mappingKey_mem_keys_aux users [] u hu

/-- C1 witness: on a one-record collection the mapping has exactly one
entry and the record's key is present. -/
theorem create_migration_mapping_totality_witness :
    (createMigrationMapping [(⟨1, none⟩ : UserDoc)]).length = 1
    ∧ mappingKey ⟨1, none⟩
        ∈ (createMigrationMapping [(⟨1, none⟩ : UserDoc)]).map Prod.fst :=
  create_migration_mapping_totality [⟨1, none⟩] ⟨1, none⟩ (by decide) (by decide)

/-- An unmapped non-null reference leaves the document unchanged in the
per-document step of `_migrate_single_collection`. -/
theorem migrateDepDoc_unmapped (mapping : List (String × String)) (d : DepDoc)
    (v : Value) (hv : d.userId = some v) (hn : ¬ v = Value.null)
    (hm : dictLookup mapping (toStr v) = none) :
    migrateDepDoc mapping d = d := by
  unfold migrateDepDoc
  rw [hv]
  simp only [if_neg hn, hm]

/-- C4: a dependent-collection document with a non-null `userId` whose
string form is absent from the migration mapping is left byte-for-byte
unchanged at its position by a live `_migrate_single_collection` pass (and
the code has no error report for this case: the only logging in this path is
the collection-level summary, see the comment at the missing-mapping branch
of the source). -/
theorem migrate_single_collection_preserves_unmapped
    (mapping : List (String × String)) (docs : List DepDoc) (i : Nat)
    (d : DepDoc) (v : Value) (hi : docs.get? i = some d)
    (hv : d.userId = some v) (hn : ¬ v = Value.null)
    (hm : dictLookup mapping (toStr v) = none) :
    (migrateSingleCollection false mapping docs).1.get? i = some d := by
  have hone : migrateDepDoc mapping d = d := migrateDepDoc_unmapped mapping d v hv hn hm
  have hi2 : docs[i]? = some d := by simpa [List.get?_eq_getElem?] using hi
  simp [migrateSingleCollection, List.get?_eq_getElem?, List.getElem?_map, hi2, hone]

/-- C4 witness: a reference string absent from a concrete mapping survives
the pass unchanged. -/
theorem migrate_single_collection_preserves_unmapped_witness :
    (migrateSingleCollection false [("a", "b")]
        [(⟨1, some (Value.str "x")⟩ : DepDoc)]).1.get? 0
      = some ⟨1, some (Value.str "x")⟩ :=
  migrate_single_collection_preserves_unmapped [("a", "b")]
    [⟨1, some (Value.str "x")⟩] 0 ⟨1, some (Value.str "x")⟩ (Value.str "x")
    (by decide) (by decide) (by decide) (by decide)

/-- The invalid-reference accumulator of `_check_reference_integrity` builds
exactly the first-occurrence de-duplication of the invalid reference
strings. -/
theorem foldl_refIntegrityStep_third (valid : List String) (refs : List String) :
    ∀ acc : Nat × Nat × List String,
      (refs.foldl (refIntegrityStep valid) acc).2.2
        = (refs.filter (fun s => decide (¬ s ∈ valid))).foldl dedupStep acc.2.2 := by
  induction refs with
  | nil => intro acc; rfl
  | cons s rest ih =>
    intro acc
    by_cases hs : s ∈ valid
    · have h1 : refIntegrityStep valid acc s = (acc.1 + 1, acc.2.1, acc.2.2) := by
        simp [refIntegrityStep, hs]
      have h2 : (s :: rest).filter (fun t => decide (¬ t ∈ valid))
          = rest.filter (fun t => decide (¬ t ∈ valid)) := by simp [hs]
      rw [List.foldl_cons, h1, h2]
      exact ih (acc.1 + 1, acc.2.1, acc.2.2)
    · have h1 : refIntegrityStep valid acc s
          = (acc.1, acc.2.1 + 1, dedupStep acc.2.2 s) := by
        simp [refIntegrityStep, hs, dedupStep]
      have h2 : (s :: rest).filter (fun t => decide (¬ t ∈ valid))
          = s :: rest.filter (fun t => decide (¬ t ∈ valid)) := by simp [hs]
      rw [List.foldl_cons, h1, h2, List.foldl_cons]
      exact ih (acc.1, acc.2.1 + 1, dedupStep acc.2.2 s)

/-- The reported invalid list of `_check_reference_integrity` is the orphan
list truncated to its first 50 entries. -/
theorem checkReferenceIntegrity_invalidUserIds (users : List UserDoc)
    (docs : List DepDoc) :
    (checkReferenceIntegrity users docs).invalidUserIds
      = (findOrphanedReferences users docs).take 50 := by
  show (((refStrings docs).foldl (refIntegrityStep (validUserIds users))
      (0, 0, [])).2.2).take 50
    = (((refStrings docs).filter
        (fun s => decide (¬ s ∈ validUserIds users))).foldl dedupStep []).take 50
  rw [foldl_refIntegrityStep_third (validUserIds users) (refStrings docs)
    (0, 0, [])]

set_option maxRecDepth 4000 in
/-- C5 counterexample: with 51 distinct invalid reference values, the
orphan list of `_find_orphaned_references` contains a value (here the
string of 50) that `_check_reference_integrity` never reports, because its
`invalid_user_ids` output is truncated to the first 50 entries. -/
theorem find_orphaned_vs_reported_cex :
    "50" ∈ findOrphanedReferences []
        ((List.range 51).map
          (fun i => (⟨i, some (Value.int (Int.ofNat i))⟩ : DepDoc)))
    ∧ ¬ "50" ∈ (checkReferenceIntegrity []
        ((List.range 51).map
          (fun i => (⟨i, some (Value.int (Int.ofNat i))⟩ : DepDoc)))).invalidUserIds := by
  decide

/-- C5 amended: for every dependent collection and database state, the
orphan list is exactly the de-duplicated set of ALL invalid reference
values; it coincides (as a set) with the invalid values reported by
`_check_reference_integrity` exactly when there are at most 50 distinct
invalid values, since the reported list is truncated to its first 50
entries. -/
theorem find_orphaned_matches_reported (users : List UserDoc)
    (docs : List DepDoc) (s : String)
    (h : (findOrphanedReferences users docs).length ≤ 50) :
    (s ∈ findOrphanedReferences users docs
      ↔ s ∈ (checkReferenceIntegrity users docs).invalidUserIds) := by
  rw [checkReferenceIntegrity_invalidUserIds, List.take_of_length_le h]

/-- C5 witness: with a single invalid reference the orphan list and the
reported invalid list agree. -/
theorem find_orphaned_matches_reported_witness :
    ("g" ∈ findOrphanedReferences [] [(⟨0, some (Value.str "g")⟩ : DepDoc)]
      ↔ "g" ∈ (checkReferenceIntegrity []
          [(⟨0, some (Value.str "g")⟩ : DepDoc)]).invalidUserIds) :=
  find_orphaned_matches_reported [] [⟨0, some (Value.str "g")⟩] "g" (by decide)

/-- With no per-record exception, `migrate_users_collection` reports
success in both dry-run and live mode. -/
theorem migrateUsersCollection_noFail_success (dryRun : Bool)
    (docs : List UserDoc) :
    (migrateUsersCollection dryRun (fun _ => false) docs).success = true := by
  cases dryRun
  · simpa [migrateUsersCollection] using migrateUsersLoop_noFail_success docs
  · rfl

/-- A connected run with no per-record exception always returns success,
whatever the residual integrity counts are. -/
theorem runMigration_connected_success (dryRun checkOnly : Bool)
    (db : DbState) :
    (runMigration true dryRun checkOnly db).success = true := by
  have h := migrateUsersCollection_noFail_success dryRun db.users
  unfold runMigration
  cases checkOnly
  · simp only [Bool.not_true, Bool.false_eq_true, if_false]
    split
    · rfl
    · rw [h]
      simp
  · rfl

/-- C6 counterexample: a preview (dry-run) run on a non-empty users
collection leaves every collection untouched but does write the
Build-mapping backup artifact, because `create_migration_mapping` saves the
backup before any dry-run check. -/
theorem dry_run_backup_written_cex :
    (runMigration true true false
        ⟨[⟨1, none⟩], [], [], [], []⟩).backupWritten = true
    ∧ (runMigration true true false ⟨[⟨1, none⟩], [], [], [], []⟩).db
        = ⟨[⟨1, none⟩], [], [], [], []⟩ := by decide

/-- C6 amended: a connected preview (dry-run) run performs only the
read-only analysis and verification: it returns success, leaves every
document of every collection unchanged, and still writes the Build-mapping
backup artifact (the write is not suppressed in dry-run mode). -/
theorem run_migration_dry_run (db : DbState) :
    runMigration true true false db = ⟨true, db, true⟩ := by
  unfold runMigration
  simp only [Bool.not_true, Bool.false_eq_true, if_false]
  split
  · rfl
  · rfl

/-- C8 counterexample: a live run over a database with one user and one
orphaned address reference completes with exit code 0 even though the
post-migration verification still counts an invalid reference — a partial
failure in the claim's sense does not produce exit code 1. -/
theorem exit_code_partial_failure_cex :
    mainExitCode (runMigration true false false
        ⟨[⟨1, none⟩], [⟨10, some (Value.str "ghost")⟩], [], [], []⟩).success = 0
    ∧ 0 < (checkReferenceIntegrity
        (runMigration true false false
          ⟨[⟨1, none⟩], [⟨10, some (Value.str "ghost")⟩], [], [], []⟩).db.users
        (runMigration true false false
          ⟨[⟨1, none⟩], [⟨10, some (Value.str "ghost")⟩], [], [], []⟩).db.addresses).invalidReferences := by
  decide

/-- C8 amended: the process exit code is 0 exactly when `run_migration`
returns success and 1 otherwise; a connection failure yields 1, while any
connected run without a fatal or per-record exception yields 0 regardless
of residual inconsistent or invalid counts (the run never inspects the
verification results when deciding its return value). -/
theorem exit_code_reflects_run_success (db : DbState)
    (dryRun checkOnly : Bool) :
    mainExitCode (runMigration true dryRun checkOnly db).success = 0
    ∧ mainExitCode (runMigration false dryRun checkOnly db).success = 1 := by
  constructor
  · rw [runMigration_connected_success]
    rfl
  · rfl

/-- C9: the field-backfill scenario with skip-existing enabled: the users
document with `phone = "+1"` and `phoneVerification = true` gains
`phoneNumber = "+1"` and `phoneNumberVerification = true` with the source
fields unchanged, and a second run modifies nothing because the resulting
document no longer matches the update query. -/
theorem copy_phone_fields_scenario :
    copyPhoneFieldsRun true
        [⟨1, some (Value.str "+1"), some (Value.bool true), none, none⟩]
      = [⟨1, some (Value.str "+1"), some (Value.bool true),
          some (Value.str "+1"), some (Value.bool true)⟩]
    ∧ copyPhoneFieldsRun true
        [⟨1, some (Value.str "+1"), some (Value.bool true),
          some (Value.str "+1"), some (Value.bool true)⟩]
      = [⟨1, some (Value.str "+1"), some (Value.bool true),
          some (Value.str "+1"), some (Value.bool true)⟩]
    ∧ matchesQuery true
        ⟨1, some (Value.str "+1"), some (Value.bool true),
          some (Value.str "+1"), some (Value.bool true)⟩ = false := by decide

/-- C10 counterexample: a users document whose `phone` field holds the
null value matches the copier's query and is processed, but the null value
is not copied: after the update the `phoneNumber` field is still absent
rather than null, because the update skips sources that read as `None`
through `doc.get`. -/
theorem copy_null_source_cex :
    matchesQuery true ⟨1, some Value.null, none, none, none⟩ = true
    ∧ ¬ ((applyPhoneUpdate true
          ⟨1, some Value.null, none, none, none⟩).phoneNumber
        = some Value.null)
    ∧ (applyPhoneUpdate true
        ⟨1, some Value.null, none, none, none⟩).phoneNumber = none := by decide

/-- C10 amended: for every processed users document and every source value
of any data type other than null, the copy writes the source value verbatim
to the target field — the stored value is exactly the source `Value`, with
no transformation — whenever the target field reads as absent (or
skip-existing is disabled); a null source value is never copied. -/
theorem apply_phone_update_verbatim (skipExisting : Bool) (d : PhoneDoc)
    (v : Value) :
    (d.phone = some v → ¬ v = Value.null →
      (pyGet d.phoneNumber = none ∨ skipExisting = false) →
      (applyPhoneUpdate skipExisting d).phoneNumber = some v)
    ∧ (d.phoneVerification = some v → ¬ v = Value.null →
      (pyGet d.phoneNumberVerification = none ∨ skipExisting = false) →
      (applyPhoneUpdate skipExisting d).phoneNumberVerification = some v) := by
  constructor
  · intro hp hn ht
    have hg : pyGet d.phone = some v := by
      rw [hp]
      cases v
      · exact absurd rfl hn
      all_goals rfl
    unfold applyPhoneUpdate
    rw [hg]
    dsimp only
    rw [if_pos ht]
    cases hq : pyGet d.phoneVerification
    · rfl
    · dsimp only
      by_cases h2 : pyGet d.phoneNumberVerification = none ∨ skipExisting = false
      · rw [if_pos h2]
      · rw [if_neg h2]
  · intro hp hn ht
    have hg : pyGet d.phoneVerification = some v := by
      rw [hp]
      cases v
      · exact absurd rfl hn
      all_goals rfl
    unfold applyPhoneUpdate
    rw [hg]
    dsimp only
    rw [if_pos ht]

/-- C10 witness: a non-null string source value is copied verbatim to both
target fields of a concrete document. -/
theorem apply_phone_update_verbatim_witness :
    (applyPhoneUpdate true
        ⟨1, some (Value.str "+1"), some (Value.str "+1"), none, none⟩).phoneNumber
      = some (Value.str "+1")
    ∧ (applyPhoneUpdate true
        ⟨1, some (Value.str "+1"), some (Value.str "+1"),
          none, none⟩).phoneNumberVerification
      = some (Value.str "+1") :=
  ⟨(apply_phone_update_verbatim true
      ⟨1, some (Value.str "+1"), some (Value.str "+1"), none, none⟩
      (Value.str "+1")).1 rfl (by decide) (Or.inl rfl),
   (apply_phone_update_verbatim true
      ⟨1, some (Value.str "+1"), some (Value.str "+1"), none, none⟩
      (Value.str "+1")).2 rfl (by decide) (Or.inl rfl)⟩
